import Mathlib

/-!
Verification of the text-replacer terminal tool (src/main.rs) against its
natural-language specification.

The development shallowly embeds the core of the program:

* `remove_extra_spaces` — the pure whitespace normalizer, embedding
  `Regex::new(r"\s+").replace_all(&self.text, " ")` (main.rs lines 101-104):
  every maximal run of whitespace characters is replaced by one ASCII space.
* `App` — the application state struct (main.rs lines 46-54).
* `ClipEnv` — the outcomes of the clipboard calls one key dispatch may
  make: `Clipboard::new()` inside `paste_text_from_clipboard`,
  `get_text()` on that fresh handle, and `set_text(..)` on the session
  handle `self.clipboard`.
* `resolve` — the key-to-action mapping of the match scrutinee in
  `on_key_pressed` (main.rs lines 113-144): `F(1)`..`F(5)` with wildcard
  modifiers, `Char('c')` with exactly `CONTROL`, everything else no-op.
* `App.on_key_pressed` — the key dispatcher (main.rs lines 110-154),
  including the early return caused by the `?` operator on
  `paste_text_from_clipboard()` in the `F(1)` arm (which bypasses the
  error-recording block), and the error-recording block at lines 146-151.
* `runLoop` — the main loop `App::run` (lines 59-65): draw, then handle
  one event; an `Err` escaping `handle_events` is propagated by `?` and
  ends the loop.
-/

/-- Characters matched by the Rust regex class `\s` (Unicode White_Space),
used by `Regex::new(r"\s+")` in `remove_extra_spaces`. -/
def isWS (c : Char) : Bool :=
  c = ' ' || c = '\t' || c = '\n' || c.val = 0x0B || c.val = 0x0C || c = '\r' ||
  c.val = 0x85 || c.val = 0xA0 || c.val = 0x1680 ||
  (0x2000 ≤ c.val && c.val ≤ 0x200A) ||
  c.val = 0x2028 || c.val = 0x2029 || c.val = 0x202F || c.val = 0x205F ||
  c.val = 0x3000

/-- Core of `remove_extra_spaces`: the effect of
`re.replace_all(text, " ")` with `re = \s+` on the character list — at a
whitespace character the leftmost-longest match of one-or-more whitespace
characters is replaced by a single ASCII space and scanning resumes after
the matched run. -/
def collapseWS : List Char → List Char
  | [] => []
  | c :: rest =>
    if isWS c then ' ' :: collapseWS (rest.dropWhile isWS)
    else c :: collapseWS rest
termination_by l => l.length
decreasing_by
  · exact Nat.lt_succ_of_le (List.Sublist.length_le (List.dropWhile_sublist _))
  · exact Nat.lt_succ_self rest.length

/-- The body of `App::remove_extra_spaces` as a pure function on the text
buffer (main.rs lines 101-104):
`self.text = re.replace_all(&self.text, " ").to_string()`. -/
def remove_extra_spaces (s : String) : String :=
  String.mk (collapseWS s.data)

namespace TextReplacer

/-- The `Action` enum (main.rs lines 23-30). The implicit no-op of the
dispatcher's catch-all arm is modelled by `Option Action` with `none`. -/
inductive Action where
  | PasteFromClipboard
  | RemoveExtraSpaces
  | CopyToClipboard
  | ClearText
  | QuickFix
  | Exit
deriving DecidableEq, Repr

/-- The crossterm `KeyModifiers` bitflag set. -/
structure Modifiers where
  shift : Bool
  control : Bool
  alt : Bool
  superKey : Bool
  hyper : Bool
  metaKey : Bool
deriving DecidableEq, Repr

/-- The empty modifier set. -/
def Modifiers.empty : Modifiers := ⟨false, false, false, false, false, false⟩

/-- The constant `KeyModifiers::CONTROL`: exactly the control bit. -/
def Modifiers.CONTROL : Modifiers := ⟨false, true, false, false, false, false⟩

/-- The crossterm `KeyCode` values the dispatcher distinguishes: function
keys, character keys, and everything else collapsed into an opaque tag. -/
inductive KeyCode where
  | F (n : Nat)
  | Chr (c : Char)
  | Other (tag : Nat)
deriving DecidableEq, Repr

/-- A key-press event: code plus modifier set (the only parts of the
crossterm `KeyEvent` the dispatcher reads). -/
structure KeyEvent where
  code : KeyCode
  modifiers : Modifiers
deriving DecidableEq, Repr

/-- The `App` struct (main.rs lines 46-54). `clipboard` records whether
the session handle `Option<Clipboard>` acquired in `main` is present. -/
structure App where
  exit : Bool
  clipboard : Bool
  text : String
  last_pressed_key : Option KeyEvent
  last_error : Option String
  last_action : Option Action
deriving DecidableEq, Repr

/-- Outcomes of the clipboard calls one key dispatch may make:
`newHandle` is the result of the fresh `Clipboard::new()` inside
`paste_text_from_clipboard`, `getText` the result of `get_text()` on that
handle, and `setText` the result of `set_text(..)` on the session handle
when it is present. Error payloads are the displayed messages. -/
structure ClipEnv where
  newHandle : Except String Unit
  getText : Except String String
  setText : Except String Unit
deriving Repr

/-- `App::paste_text_from_clipboard` (main.rs lines 84-90): acquire a
fresh handle with `Clipboard::new()?` (an acquisition failure propagates),
then `if let Ok(clip_text) = clipboard.get_text()` assign the buffer; a
read miss leaves the buffer unchanged and still returns `Ok`. -/
def App.paste_text_from_clipboard (s : App) (env : ClipEnv) :
    App × Except String Unit :=
  match env.newHandle with
  | .error e => (s, .error e)
  | .ok _ =>
    match env.getText with
    | .ok t => ({ s with text := t }, .ok ())
    | .error _ => (s, .ok ())

/-- `App::copy_text_to_clipboard` (main.rs lines 92-99): with the session
handle present, `set_text(self.text.clone())?`; with it absent, return
the error `"Clipboard unavailable"`. -/
def App.copy_text_to_clipboard (s : App) (env : ClipEnv) : Except String Unit :=
  if s.clipboard then env.setText else .error "Clipboard unavailable"

/-- `App::clear_text` (main.rs lines 106-108). -/
def App.clear_text (s : App) : App := { s with text := "" }

/-- `App::request_exit` (main.rs lines 156-158). -/
def App.request_exit (s : App) : App := { s with exit := true }

/-- The error-recording block at the end of `on_key_pressed` (main.rs
lines 146-153): `if let Err(ref e) = result` store a timestamped message
into `last_error`, then return `result` unchanged. -/
def recordError (s : App) (r : Except String Unit) (now : String) :
    App × Except String Unit :=
  match r with
  | .error e => ({ s with last_error := some (now ++ ": " ++ e) }, .error e)
  | .ok _ => (s, .ok ())

/-- The key-to-action mapping of the `match (key_event.code,
key_event.modifiers)` scrutinee in `on_key_pressed` (main.rs lines
113-144): `F(1)`..`F(5)` each match with a wildcard for the modifiers,
`Char('c')` matches only the exact constant `KeyModifiers::CONTROL`, and
the catch-all arm is the implicit no-op (`none`). -/
def resolve (code : KeyCode) (mods : Modifiers) : Option Action :=
  match code with
  | .F n =>
    if n = 1 then some .QuickFix
    else if n = 2 then some .PasteFromClipboard
    else if n = 3 then some .RemoveExtraSpaces
    else if n = 4 then some .CopyToClipboard
    else if n = 5 then some .ClearText
    else none
  | .Chr ch => if ch = 'c' ∧ mods = Modifiers.CONTROL then some .Exit else none
  | .Other _ => none

/-- `App::on_key_pressed` (main.rs lines 110-154). `last_pressed_key` is
set unconditionally first. Each mapped arm sets `last_action` before
running its effect. In the `F(1)` (QuickFix) arm the `?` operator on
`paste_text_from_clipboard()` returns early on failure, skipping the
normalize and copy steps and also the error-recording block; every other
result reaches `recordError`. The returned `Except` is what the caller
(`handle_events`, then `run`'s `?`) sees. -/
def App.on_key_pressed (s0 : App) (ev : KeyEvent) (env : ClipEnv)
    (now : String) : App × Except String Unit :=
  let s1 := { s0 with last_pressed_key := some ev }
  match resolve ev.code ev.modifiers with
  | some .QuickFix =>
    let s2 := { s1 with last_action := some .QuickFix }
    match s2.paste_text_from_clipboard env with
    | (s3, .error e) => (s3, .error e)
    | (s3, .ok _) =>
      let s4 := { s3 with text := remove_extra_spaces s3.text }
      recordError s4 (s4.copy_text_to_clipboard env) now
  | some .PasteFromClipboard =>
    let s2 := { s1 with last_action := some .PasteFromClipboard }
    match s2.paste_text_from_clipboard env with
    | (s3, r) => recordError s3 r now
  | some .RemoveExtraSpaces =>
    let s2 := { s1 with last_action := some .RemoveExtraSpaces }
    recordError { s2 with text := remove_extra_spaces s2.text } (.ok ()) now
  | some .CopyToClipboard =>
    let s2 := { s1 with last_action := some .CopyToClipboard }
    recordError s2 (s2.copy_text_to_clipboard env) now
  | some .ClearText =>
    let s2 := { s1 with last_action := some .ClearText }
    recordError s2.clear_text (.ok ()) now
  | some .Exit =>
    let s2 := { s1 with last_action := some .Exit }
    recordError s2.request_exit (.ok ()) now
  | none => recordError s1 (.ok ()) now

/-- One loop iteration's external inputs: the key event delivered by
`event::read()`, the clipboard-call outcomes, and the formatted current
time `chrono::Local::now()` would produce. -/
structure Cycle where
  ev : KeyEvent
  env : ClipEnv
  now : String
deriving Repr

/-- How a run of the main loop ends: the `while !self.exit` condition
became false (`exited`), the event source had no further events
(`blocked`, after the iteration's draw), or an `Err` escaped
`handle_events` and `run`'s `?` propagated it (`errored`). -/
inductive RunOutcome where
  | exited
  | blocked
  | errored (msg : String)
deriving DecidableEq, Repr

/-- `App::run` (main.rs lines 59-65) over a finite supply of input
cycles: while `exit` is false, draw once, then handle one event; an
`Err` from `on_key_pressed` is propagated by `handle_events` and by the
`?` in `run`, ending the loop. Returns the final state, the number of
draws performed, the unconsumed cycles, and how the loop ended. -/
def runLoop : App → List Cycle → App × Nat × List Cycle × RunOutcome
  | s, evs =>
    if s.exit then (s, 0, evs, .exited)
    else
      match evs with
      | [] => (s, 1, [], .blocked)
      | cy :: rest =>
        match s.on_key_pressed cy.ev cy.env cy.now with
        | (s2, .error m) => (s2, 1, rest, .errored m)
        | (s2, .ok _) =>
          match runLoop s2 rest with
          | (sf, n, lo, oc) => (sf, n + 1, lo, oc)

end TextReplacer

set_option maxHeartbeats 2000000 in
lemma collapseWS_nil : collapseWS [] = [] := by
  simp [collapseWS]

lemma collapseWS_cons_ws (c : Char) (rest : List Char) (h : isWS c = true) :
    collapseWS (c :: rest) = ' ' :: collapseWS (rest.dropWhile isWS) := by
  rw [collapseWS.eq_def]
  simp [h]

lemma collapseWS_cons_not_ws (c : Char) (rest : List Char) (h : isWS c = false) :
    collapseWS (c :: rest) = c :: collapseWS rest := by
  rw [collapseWS.eq_def]
  simp [h]

/-- The head of `l.dropWhile p` does not satisfy `p` (or the result is
empty). -/
lemma dropWhile_head_false (p : Char → Bool) :
    ∀ l : List Char, l.dropWhile p = [] ∨
      ∃ c t, l.dropWhile p = c :: t ∧ p c = false := by
  intro l
  induction l with
  | nil => exact Or.inl rfl
  | cons c rest ih =>
    by_cases h : p c = true
    · simpa [List.dropWhile, h] using ih
    · simp only [Bool.not_eq_true] at h
      exact Or.inr ⟨c, rest, by simp [List.dropWhile, h], h⟩

/-- On a list that is empty or starts with a non-whitespace character,
`dropWhile isWS` is the identity. -/
lemma dropWhile_isWS_eq_self (l : List Char)
    (h : l = [] ∨ ∃ c t, l = c :: t ∧ isWS c = false) :
    l.dropWhile isWS = l := by
  rcases h with rfl | ⟨c, t, rfl, hc⟩
  · rfl
  · simp [List.dropWhile, hc]

/-- The output of `collapseWS` on a list that is empty or starts with a
non-whitespace character again starts with a non-whitespace character (or
is empty), so a further `dropWhile isWS` is the identity on it. -/
lemma dropWhile_isWS_collapseWS (l : List Char)
    (h : l = [] ∨ ∃ c t, l = c :: t ∧ isWS c = false) :
    (collapseWS l).dropWhile isWS = collapseWS l := by
  rcases h with rfl | ⟨c, t, rfl, hc⟩
  · simp [collapseWS_nil]
  · rw [collapseWS_cons_not_ws c t hc]
    simp [List.dropWhile, hc]

lemma isWS_space : isWS ' ' = true := rfl

/-- Idempotence of the collapsing pass, by strong induction on length. -/
lemma collapseWS_idem : ∀ l : List Char, collapseWS (collapseWS l) = collapseWS l := by
  intro l
  generalize hn : l.length = n
  induction n using Nat.strong_induction_on generalizing l with
  | _ n ih =>
    cases l with
    | nil => simp [collapseWS_nil]
    | cons c rest =>
      subst hn
      by_cases hc : isWS c = true
      · rw [collapseWS_cons_ws c rest hc]
        rw [collapseWS_cons_ws ' ' _ isWS_space]
        rw [dropWhile_isWS_collapseWS _ (dropWhile_head_false isWS rest)]
        have hlen : (rest.dropWhile isWS).length < (c :: rest).length :=
          Nat.lt_succ_of_le (List.Sublist.length_le (List.dropWhile_sublist _))
        rw [ih _ hlen _ rfl]
      · simp only [Bool.not_eq_true] at hc
        rw [collapseWS_cons_not_ws c rest hc]
        rw [collapseWS_cons_not_ws c _ hc]
        have hlen : rest.length < (c :: rest).length := Nat.lt_succ_self _
        rw [ih _ hlen _ rfl]

/-- On a whitespace-free list, `collapseWS` is the identity. -/
lemma collapseWS_of_no_ws : ∀ l : List Char, (∀ c ∈ l, isWS c = false) →
    collapseWS l = l := by
  intro l
  induction l with
  | nil => intro _; exact collapseWS_nil
  | cons c rest ih =>
    intro h
    rw [collapseWS_cons_not_ws c rest (h c (List.mem_cons_self c rest))]
    rw [ih fun d hd => h d (List.mem_cons_of_mem c hd)]

/-- A whitespace-free prefix passes through `collapseWS` unchanged. -/
lemma collapseWS_append_no_ws : ∀ a r : List Char, (∀ c ∈ a, isWS c = false) →
    collapseWS (a ++ r) = a ++ collapseWS r := by
  intro a
  induction a with
  | nil => intro r _; rfl
  | cons c a ih =>
    intro r h
    rw [List.cons_append, collapseWS_cons_not_ws c _ (h c (List.mem_cons_self c a))]
    rw [ih r fun d hd => h d (List.mem_cons_of_mem c hd), List.cons_append]

/-- Dropping whitespace skips over an all-whitespace prefix. -/
lemma dropWhile_isWS_append_ws : ∀ w r : List Char, (∀ c ∈ w, isWS c = true) →
    (w ++ r).dropWhile isWS = r.dropWhile isWS := by
  intro w
  induction w with
  | nil => intro r _; rfl
  | cons c w ih =>
    intro r h
    rw [List.cons_append]
    simp only [List.dropWhile, h c (List.mem_cons_self c w)]
    exact ih r fun d hd => h d (List.mem_cons_of_mem c hd)

/-- A maximal nonempty whitespace run at the front collapses to one space:
maximality is expressed by requiring the remainder to be empty or start
with a non-whitespace character. -/
lemma collapseWS_ws_run (w r : List Char) (hw : ∀ c ∈ w, isWS c = true)
    (hne : w ≠ []) (hr : r = [] ∨ ∃ d t, r = d :: t ∧ isWS d = false) :
    collapseWS (w ++ r) = ' ' :: collapseWS r := by
  cases w with
  | nil => exact absurd rfl hne
  | cons c w =>
    rw [List.cons_append, collapseWS_cons_ws c _ (hw c (List.mem_cons_self c w))]
    rw [dropWhile_isWS_append_ws w r fun d hd => hw d (List.mem_cons_of_mem c hd)]
    rw [dropWhile_isWS_eq_self r hr]

/-- C3: the whitespace normalizer (the code's `remove_extra_spaces`, the
spec's `normalizeWhitespace`) is idempotent: applying it twice yields the
same result as applying it once, for every string. -/
theorem remove_extra_spaces_idempotent (s : String) :
    remove_extra_spaces (remove_extra_spaces s) = remove_extra_spaces s := by
  unfold remove_extra_spaces
  exact congrArg String.mk (collapseWS_idem s.data)

/-- C4 amended: `remove_extra_spaces` replaces every maximal run of
one-or-more Unicode White_Space characters — the class the code's regex
`\s` actually matches, wider than the claim's enumerated space, tab,
newline and carriage return — by a single ASCII space, and performs no
trimming.
First conjunct: a whitespace-free string is returned unchanged. Second
conjunct: a maximal whitespace run (nonempty, preceded by a whitespace-free
prefix and followed by a remainder that is empty or starts with a
non-whitespace character, so the run cannot extend either way) becomes
exactly one space in place — with an empty prefix the result keeps a
single leading space, with an empty remainder a single trailing space. -/
theorem remove_extra_spaces_maximal_runs :
    (∀ s : String, (∀ c ∈ s.data, isWS c = false) → remove_extra_spaces s = s)
  ∧ (∀ a w r : List Char, (∀ c ∈ a, isWS c = false) → (∀ c ∈ w, isWS c = true) →
      w ≠ [] → (r = [] ∨ ∃ d t, r = d :: t ∧ isWS d = false) →
      remove_extra_spaces (String.mk (a ++ w ++ r)) =
        String.mk (a ++ ' ' :: collapseWS r)) := by
  constructor
  · intro s h
    obtain ⟨l⟩ := s
    show String.mk (collapseWS l) = String.mk l
    rw [collapseWS_of_no_ws l h]
  · intro a w r ha hw hne hr
    show String.mk (collapseWS (a ++ w ++ r)) = _
    rw [List.append_assoc, collapseWS_append_no_ws a _ ha,
      collapseWS_ws_run w r hw hne hr]

/-- Witness for C4 at concrete inputs: a whitespace-free string is kept,
and a maximal interior run of a space and a tab collapses to one space. -/
theorem remove_extra_spaces_maximal_runs_witness :
    remove_extra_spaces (String.mk ['a', 'b']) = String.mk ['a', 'b'] ∧
    remove_extra_spaces (String.mk (['x'] ++ [' ', '\t'] ++ ['y'])) =
      String.mk (['x'] ++ ' ' :: collapseWS ['y']) :=
  ⟨remove_extra_spaces_maximal_runs.1 (String.mk ['a', 'b']) (by decide),
   remove_extra_spaces_maximal_runs.2 ['x'] [' ', '\t'] ['y'] (by decide)
     (by decide) (by decide) (Or.inr ⟨'y', [], rfl, by decide⟩)⟩

/-- Counterexample to C4 as stated: the claim fixes the whitespace class
to space, tab, newline and carriage return, but the regex `\s` the code
uses matches all Unicode White_Space. The string of `a`, NBSP (U+00A0),
`b` contains none of the four claimed whitespace characters, so by the
claim it should be returned unchanged; the normalizer instead rewrites it
to `a b`, collapsing the NBSP to an ASCII space. -/
theorem nbsp_collapsed_despite_no_claimed_ws :
    (∀ c ∈ ['a', Char.ofNat 0xA0, 'b'],
        c ≠ ' ' ∧ c ≠ '\t' ∧ c ≠ '\n' ∧ c ≠ '\r') ∧
    remove_extra_spaces (String.mk ['a', Char.ofNat 0xA0, 'b']) =
      String.mk ['a', ' ', 'b'] ∧
    remove_extra_spaces (String.mk ['a', Char.ofNat 0xA0, 'b']) ≠
      String.mk ['a', Char.ofNat 0xA0, 'b'] := by
  have hA : isWS 'a' = false := by decide
  have hB : isWS 'b' = false := by decide
  have hN : isWS (Char.ofNat 0xA0) = true := by decide
  have h1 : collapseWS ['a', Char.ofNat 0xA0, 'b'] = ['a', ' ', 'b'] := by
    rw [collapseWS_cons_not_ws _ _ hA, collapseWS_cons_ws _ _ hN]
    rw [show List.dropWhile isWS ['b'] = ['b'] by simp [List.dropWhile, hB]]
    rw [collapseWS_cons_not_ws _ _ hB, collapseWS_nil]
  have h2 : remove_extra_spaces (String.mk ['a', Char.ofNat 0xA0, 'b']) =
      String.mk ['a', ' ', 'b'] := by
    show String.mk (collapseWS ['a', Char.ofNat 0xA0, 'b']) = _
    rw [h1]
  refine ⟨by decide, h2, ?_⟩
  rw [h2]
  decide

namespace TextReplacer

/-- C6: a key event whose (code, modifier set) is not in the dispatcher's
mapping leaves `text`, `last_action` and `last_error` unchanged, while
`last_pressed_key` is still updated to record the event. -/
theorem unmapped_key_leaves_state (s : App) (ev : KeyEvent) (env : ClipEnv)
    (now : String) (h : resolve ev.code ev.modifiers = none) :
    (s.on_key_pressed ev env now).1.text = s.text ∧
    (s.on_key_pressed ev env now).1.last_action = s.last_action ∧
    (s.on_key_pressed ev env now).1.last_error = s.last_error ∧
    (s.on_key_pressed ev env now).1.last_pressed_key = some ev := by
  simp [App.on_key_pressed, h, recordError]

/-- Witness for C6: plain `x` is unmapped; state is untouched except for
the recorded key. -/
theorem unmapped_key_leaves_state_witness :
    ((⟨false, true, "txt", none, none, none⟩ : App).on_key_pressed
        ⟨.Chr 'x', Modifiers.empty⟩ ⟨.ok (), .ok "z", .ok ()⟩ "T").1.text = "txt" ∧
    ((⟨false, true, "txt", none, none, none⟩ : App).on_key_pressed
        ⟨.Chr 'x', Modifiers.empty⟩ ⟨.ok (), .ok "z", .ok ()⟩ "T").1.last_action = none ∧
    ((⟨false, true, "txt", none, none, none⟩ : App).on_key_pressed
        ⟨.Chr 'x', Modifiers.empty⟩ ⟨.ok (), .ok "z", .ok ()⟩ "T").1.last_error = none ∧
    ((⟨false, true, "txt", none, none, none⟩ : App).on_key_pressed
        ⟨.Chr 'x', Modifiers.empty⟩ ⟨.ok (), .ok "z", .ok ()⟩ "T").1.last_pressed_key =
      some ⟨.Chr 'x', Modifiers.empty⟩ :=
  unmapped_key_leaves_state ⟨false, true, "txt", none, none, none⟩
    ⟨.Chr 'x', Modifiers.empty⟩ ⟨.ok (), .ok "z", .ok ()⟩ "T" (by decide)

/-- C7: dispatching `CopyToClipboard` (`F(4)`) with the session clipboard
handle absent leaves the buffer unchanged, sets `last_action` to
`CopyToClipboard` (before the effect, so it reflects intent), and stores a
timestamped `Clipboard unavailable` message in `last_error`. -/
theorem copy_unavailable_reported (s : App) (m : Modifiers) (env : ClipEnv)
    (now : String) (h : s.clipboard = false) :
    (s.on_key_pressed ⟨.F 4, m⟩ env now).1.text = s.text ∧
    (s.on_key_pressed ⟨.F 4, m⟩ env now).1.last_action = some .CopyToClipboard ∧
    (s.on_key_pressed ⟨.F 4, m⟩ env now).1.last_error =
      some (now ++ ": " ++ "Clipboard unavailable") := by
  simp [App.on_key_pressed, resolve, App.copy_text_to_clipboard, h, recordError]

/-- Witness for C7 at a concrete handle-absent state. -/
theorem copy_unavailable_reported_witness :
    ((⟨false, false, "hello", none, none, none⟩ : App).on_key_pressed
        ⟨.F 4, Modifiers.empty⟩ ⟨.ok (), .ok "z", .ok ()⟩ "T").1.text = "hello" ∧
    ((⟨false, false, "hello", none, none, none⟩ : App).on_key_pressed
        ⟨.F 4, Modifiers.empty⟩ ⟨.ok (), .ok "z", .ok ()⟩ "T").1.last_action =
      some .CopyToClipboard ∧
    ((⟨false, false, "hello", none, none, none⟩ : App).on_key_pressed
        ⟨.F 4, Modifiers.empty⟩ ⟨.ok (), .ok "z", .ok ()⟩ "T").1.last_error =
      some ("T" ++ ": " ++ "Clipboard unavailable") :=
  copy_unavailable_reported ⟨false, false, "hello", none, none, none⟩
    Modifiers.empty ⟨.ok (), .ok "z", .ok ()⟩ "T" rfl

/-- Counterexample to C8 as stated: `F(2)` pressed together with the
(unexpected) control modifier still resolves to `PasteFromClipboard`, not
to the no-op, because the `F(..)` arms match with a wildcard modifier
pattern. -/
theorem f_key_matches_with_modifier :
    resolve (.F 2) Modifiers.CONTROL = some .PasteFromClipboard ∧
    resolve (.F 2) Modifiers.CONTROL ≠ none := by
  decide

/-- C8 amended: the function-key bindings ignore the modifier set entirely
(they match any modifiers, expected or not); the only modifier-sensitive
binding is `Char('c')`, which resolves to `Exit` exactly for the modifier
set `CONTROL` and to the no-op for every other modifier set; any other
character resolves to the no-op. -/
theorem resolve_modifier_wildcard :
    (∀ (n : Nat) (mods : Modifiers),
        resolve (.F n) mods = resolve (.F n) Modifiers.empty) ∧
    (∀ mods : Modifiers, mods ≠ Modifiers.CONTROL → resolve (.Chr 'c') mods = none) ∧
    (∀ (c : Char) (mods : Modifiers), c ≠ 'c' → resolve (.Chr c) mods = none) :=
  ⟨fun _ _ => rfl,
   fun mods h => by simp [resolve, h],
   fun c mods h => by simp [resolve, h]⟩

/-- Witness for C8 amended: F1 with control resolves as with no modifiers;
`c` without control and `x` with control are no-ops. -/
theorem resolve_modifier_wildcard_witness :
    resolve (.F 1) Modifiers.CONTROL = resolve (.F 1) Modifiers.empty ∧
    resolve (.Chr 'c') Modifiers.empty = none ∧
    resolve (.Chr 'x') Modifiers.CONTROL = none :=
  ⟨resolve_modifier_wildcard.1 1 Modifiers.CONTROL,
   resolve_modifier_wildcard.2.1 Modifiers.empty (by decide),
   resolve_modifier_wildcard.2.2 'x' Modifiers.CONTROL (by decide)⟩

end TextReplacer

namespace TextReplacer

/-- C9: the control-c binding sets the exit flag, and the exited state is
terminal and absorbing: with `exit` true the loop performs no draw, no
state mutation, consumes no event, and reports a normal termination. -/
theorem exit_terminal :
    (∀ (s : App) (env : ClipEnv) (now : String),
        (s.on_key_pressed ⟨.Chr 'c', Modifiers.CONTROL⟩ env now).1.exit = true) ∧
    (∀ (s : App) (evs : List Cycle), s.exit = true →
        runLoop s evs = (s, 0, evs, .exited)) := by
  constructor
  · intro s env now
    simp [App.on_key_pressed, resolve, recordError, App.request_exit]
  · intro s evs h
    cases evs <;> simp [runLoop, h]

/-- Witness for C9: control-c sets the flag on a concrete state, and a
concrete exited state absorbs a pending event without any activity. -/
theorem exit_terminal_witness :
    ((⟨false, true, "txt", none, none, none⟩ : App).on_key_pressed
        ⟨.Chr 'c', Modifiers.CONTROL⟩ ⟨.ok (), .ok "z", .ok ()⟩ "T").1.exit = true ∧
    runLoop ⟨true, true, "txt", none, none, none⟩
        [⟨⟨.F 5, Modifiers.empty⟩, ⟨.ok (), .ok "z", .ok ()⟩, "U"⟩] =
      (⟨true, true, "txt", none, none, none⟩, 0,
        [⟨⟨.F 5, Modifiers.empty⟩, ⟨.ok (), .ok "z", .ok ()⟩, "U"⟩], .exited) :=
  ⟨exit_terminal.1 ⟨false, true, "txt", none, none, none⟩ ⟨.ok (), .ok "z", .ok ()⟩ "T",
   exit_terminal.2 ⟨true, true, "txt", none, none, none⟩
     [⟨⟨.F 5, Modifiers.empty⟩, ⟨.ok (), .ok "z", .ok ()⟩, "U"⟩] rfl⟩

/-- C10: processing a key event never clears `last_error`: the resulting
`last_error` is either exactly the previous one or an overwrite with a
fresh message; in particular it is never reset from `some` to `none`. -/
theorem last_error_never_cleared (s : App) (ev : KeyEvent) (env : ClipEnv)
    (now : String) :
    (s.on_key_pressed ev env now).1.last_error = s.last_error ∨
    ∃ m, (s.on_key_pressed ev env now).1.last_error = some m := by
  rcases env with ⟨nh, gt, st⟩
  rcases hres : resolve ev.code ev.modifiers with _ | a
  · simp [App.on_key_pressed, hres, recordError]
  · cases a <;> rcases nh with e | u <;> rcases gt with e2 | t <;>
      rcases st with e3 | u3 <;> rcases hcb : s.clipboard <;>
      simp [App.on_key_pressed, hres, recordError, App.paste_text_from_clipboard,
        App.copy_text_to_clipboard, App.clear_text, App.request_exit, hcb]

end TextReplacer

namespace TextReplacer

/-- C1 evidence: a clipboard failure terminates the main loop. Pressing
`F(4)` with the session handle absent records the timestamped message in
`last_error`, but `on_key_pressed` then returns the `Err`, which
`handle_events` passes on and the `?` in `run` propagates: the loop ends
with the `errored` outcome after a single draw, the second pending event
is never consumed, and the stored error message is never rendered. -/
theorem clipboard_failure_ends_loop :
    runLoop ⟨false, false, "hello", none, none, none⟩
        [⟨⟨.F 4, Modifiers.empty⟩, ⟨.ok (), .ok "z", .ok ()⟩, "T"⟩,
         ⟨⟨.F 5, Modifiers.empty⟩, ⟨.ok (), .ok "z", .ok ()⟩, "U"⟩] =
      (⟨false, false, "hello", some ⟨.F 4, Modifiers.empty⟩,
          some "T: Clipboard unavailable", some .CopyToClipboard⟩, 1,
        [⟨⟨.F 5, Modifiers.empty⟩, ⟨.ok (), .ok "z", .ok ()⟩, "U"⟩],
        .errored "Clipboard unavailable") := by
  simp [runLoop, App.on_key_pressed, resolve, App.copy_text_to_clipboard,
    recordError]

/-- Counterexample to C2 as stated: when the paste step of QuickFix fails
(the fresh `Clipboard::new()` errs), the later steps do not execute. With
buffer `"a  b"`, a normalize step would have produced `"a b"` and a copy
attempt against the failing `set_text` would have recorded an error; the
actual result keeps `"a  b"`, records nothing (the `?` also bypasses the
recording block), and propagates the paste error. -/
theorem quickfix_paste_failure_skips_rest :
    ((⟨false, true, "a  b", none, none, none⟩ : App).on_key_pressed
        ⟨.F 1, Modifiers.empty⟩
        ⟨.error "init failed", .ok "ignored", .error "write rejected"⟩ "T").1.text
      = "a  b" ∧
    remove_extra_spaces "a  b" = "a b" ∧
    ("a  b" : String) ≠ "a b" ∧
    ((⟨false, true, "a  b", none, none, none⟩ : App).on_key_pressed
        ⟨.F 1, Modifiers.empty⟩
        ⟨.error "init failed", .ok "ignored", .error "write rejected"⟩ "T").1.last_error
      = none ∧
    ((⟨false, true, "a  b", none, none, none⟩ : App).on_key_pressed
        ⟨.F 1, Modifiers.empty⟩
        ⟨.error "init failed", .ok "ignored", .error "write rejected"⟩ "T").2
      = .error "init failed" := by
  refine ⟨rfl, ?_, by decide, rfl, rfl⟩
  have h1 : collapseWS ['a', ' ', ' ', 'b'] = ['a', ' ', 'b'] := by
    simp [collapseWS_cons_ws, collapseWS_cons_not_ws, collapseWS_nil, isWS,
      List.dropWhile]
  show String.mk (collapseWS "a  b".data) = "a b"
  rw [show "a  b".data = ['a', ' ', ' ', 'b'] from rfl, h1]

/-- C2 amended: QuickFix runs paste, then normalize, then copy in that
fixed order; a `get_text` miss leaves the text unchanged and the later
steps still run on it — normalize applies to the old buffer and the copy
step executes, silently on success and with its failure recorded in
`last_error` if `set_text` then fails; if `set_text` fails after a
successful paste and normalize, the buffer retains the normalized pasted
text and only the copy failure is reported; but if the paste step itself
fails (handle acquisition), normalize and copy are skipped and the failure
propagates without being recorded. -/
theorem quickfix_order_and_failures (s : App) (env : ClipEnv) (m : Modifiers)
    (now t emsg emsg2 : String) :
    (env.newHandle = .ok () → env.getText = .ok t → s.clipboard = true →
      env.setText = .ok () →
      ((s.on_key_pressed ⟨.F 1, m⟩ env now).1.text = remove_extra_spaces t ∧
       (s.on_key_pressed ⟨.F 1, m⟩ env now).1.last_error = s.last_error ∧
       (s.on_key_pressed ⟨.F 1, m⟩ env now).1.last_action = some .QuickFix)) ∧
    (env.newHandle = .ok () → env.getText = .ok t → s.clipboard = true →
      env.setText = .error emsg →
      ((s.on_key_pressed ⟨.F 1, m⟩ env now).1.text = remove_extra_spaces t ∧
       (s.on_key_pressed ⟨.F 1, m⟩ env now).1.last_error =
         some (now ++ ": " ++ emsg))) ∧
    (env.newHandle = .ok () → env.getText = .error emsg →
      ((s.on_key_pressed ⟨.F 1, m⟩ env now).1.text = remove_extra_spaces s.text ∧
       (s.clipboard = true → env.setText = .ok () →
         (s.on_key_pressed ⟨.F 1, m⟩ env now).1.last_error = s.last_error) ∧
       (s.clipboard = true → env.setText = .error emsg2 →
         (s.on_key_pressed ⟨.F 1, m⟩ env now).1.last_error =
           some (now ++ ": " ++ emsg2)))) ∧
    (env.newHandle = .error emsg →
      ((s.on_key_pressed ⟨.F 1, m⟩ env now).1.text = s.text ∧
       (s.on_key_pressed ⟨.F 1, m⟩ env now).1.last_error = s.last_error ∧
       (s.on_key_pressed ⟨.F 1, m⟩ env now).2 = .error emsg)) := by
  refine ⟨?_, ?_, ?_, ?_⟩
  · intro h1 h2 h3 h4
    simp [App.on_key_pressed, resolve, App.paste_text_from_clipboard,
      App.copy_text_to_clipboard, recordError, h1, h2, h3, h4]
  · intro h1 h2 h3 h4
    simp [App.on_key_pressed, resolve, App.paste_text_from_clipboard,
      App.copy_text_to_clipboard, recordError, h1, h2, h3, h4]
  · intro h1 h2
    refine ⟨?_, ?_, ?_⟩
    · rcases hst : s.clipboard
      · rcases env.setText with e | u <;>
          simp [App.on_key_pressed, resolve, App.paste_text_from_clipboard,
            App.copy_text_to_clipboard, recordError, h1, h2, hst]
      · rcases hset : env.setText with e | u <;>
          simp [App.on_key_pressed, resolve, App.paste_text_from_clipboard,
            App.copy_text_to_clipboard, recordError, h1, h2, hst, hset]
    · intro h3 h4
      simp [App.on_key_pressed, resolve, App.paste_text_from_clipboard,
        App.copy_text_to_clipboard, recordError, h1, h2, h3, h4]
    · intro h3 h4
      simp [App.on_key_pressed, resolve, App.paste_text_from_clipboard,
        App.copy_text_to_clipboard, recordError, h1, h2, h3, h4]
  · intro h1
    simp [App.on_key_pressed, resolve, App.paste_text_from_clipboard,
      recordError, h1]

/-- Witness for C2 amended: all four branches exercised on concrete
states and environments. -/
theorem quickfix_order_and_failures_witness :
    (((⟨false, true, "old", none, none, none⟩ : App).on_key_pressed
        ⟨.F 1, Modifiers.empty⟩ ⟨.ok (), .ok "a  b", .ok ()⟩ "T").1.text =
      remove_extra_spaces "a  b" ∧
     ((⟨false, true, "old", none, none, none⟩ : App).on_key_pressed
        ⟨.F 1, Modifiers.empty⟩ ⟨.ok (), .ok "a  b", .ok ()⟩ "T").1.last_error = none ∧
     ((⟨false, true, "old", none, none, none⟩ : App).on_key_pressed
        ⟨.F 1, Modifiers.empty⟩ ⟨.ok (), .ok "a  b", .ok ()⟩ "T").1.last_action =
      some .QuickFix) ∧
    (((⟨false, true, "old", none, none, none⟩ : App).on_key_pressed
        ⟨.F 1, Modifiers.empty⟩ ⟨.ok (), .ok "a  b", .error "w"⟩ "T").1.text =
      remove_extra_spaces "a  b" ∧
     ((⟨false, true, "old", none, none, none⟩ : App).on_key_pressed
        ⟨.F 1, Modifiers.empty⟩ ⟨.ok (), .ok "a  b", .error "w"⟩ "T").1.last_error =
      some ("T" ++ ": " ++ "w")) ∧
    (((⟨false, true, "o  ld", none, none, none⟩ : App).on_key_pressed
        ⟨.F 1, Modifiers.empty⟩ ⟨.ok (), .error "miss", .error "w2"⟩ "T").1.text =
      remove_extra_spaces "o  ld" ∧
     ((⟨false, true, "o  ld", none, none, none⟩ : App).on_key_pressed
        ⟨.F 1, Modifiers.empty⟩ ⟨.ok (), .error "miss", .error "w2"⟩ "T").1.last_error =
      some ("T" ++ ": " ++ "w2")) ∧
    (((⟨false, true, "old", none, none, none⟩ : App).on_key_pressed
        ⟨.F 1, Modifiers.empty⟩ ⟨.error "init", .ok "z", .ok ()⟩ "T").1.text = "old" ∧
     ((⟨false, true, "old", none, none, none⟩ : App).on_key_pressed
        ⟨.F 1, Modifiers.empty⟩ ⟨.error "init", .ok "z", .ok ()⟩ "T").1.last_error =
      none ∧
     ((⟨false, true, "old", none, none, none⟩ : App).on_key_pressed
        ⟨.F 1, Modifiers.empty⟩ ⟨.error "init", .ok "z", .ok ()⟩ "T").2 =
      .error "init") :=
  ⟨(quickfix_order_and_failures ⟨false, true, "old", none, none, none⟩
      ⟨.ok (), .ok "a  b", .ok ()⟩ Modifiers.empty "T" "a  b" "e" "e").1 rfl rfl rfl rfl,
   (quickfix_order_and_failures ⟨false, true, "old", none, none, none⟩
      ⟨.ok (), .ok "a  b", .error "w"⟩ Modifiers.empty "T" "a  b" "w" "w").2.1
     rfl rfl rfl rfl,
   ⟨((quickfix_order_and_failures ⟨false, true, "o  ld", none, none, none⟩
       ⟨.ok (), .error "miss", .error "w2"⟩ Modifiers.empty "T" "t" "miss" "w2").2.2.1
      rfl rfl).1,
    ((quickfix_order_and_failures ⟨false, true, "o  ld", none, none, none⟩
       ⟨.ok (), .error "miss", .error "w2"⟩ Modifiers.empty "T" "t" "miss" "w2").2.2.1
      rfl rfl).2.2 rfl rfl⟩,
   (quickfix_order_and_failures ⟨false, true, "old", none, none, none⟩
      ⟨.error "init", .ok "z", .ok ()⟩ Modifiers.empty "T" "t" "init" "e").2.2.2 rfl⟩

/-- Counterexample to C5 as stated: clipboard-handle absence during the
paste binding is not silent. `paste_text_from_clipboard` acquires a fresh
handle with `Clipboard::new()?`; when the acquisition fails, the error is
returned and the recording block stores a timestamped message in
`last_error`, which the claim says stays unset. -/
theorem paste_handle_failure_not_silent :
    ((⟨false, false, "keep", none, none, none⟩ : App).on_key_pressed
        ⟨.F 2, Modifiers.empty⟩ ⟨.error "init failed", .error "no text", .ok ()⟩
        "T").1.last_error = some "T: init failed" ∧
    (some "T: init failed" ≠ (none : Option String)) := by
  exact ⟨rfl, by decide⟩

/-- C5 amended: a `get_text` read miss during paste is silent — buffer
unchanged, `last_error` unchanged, `Ok` returned; but a failure of the
fresh `Clipboard::new()` inside paste is a reportable error recorded in
`last_error`; the literal `Clipboard unavailable` message is produced only
by the copy path when the session handle is absent; the paste path only
ever propagates the handle-acquisition error itself. -/
theorem getText_miss_silent (s : App) (env : ClipEnv) (m : Modifiers)
    (now emsg : String) :
    (env.newHandle = .ok () → env.getText = .error emsg →
      ((s.on_key_pressed ⟨.F 2, m⟩ env now).1.text = s.text ∧
       (s.on_key_pressed ⟨.F 2, m⟩ env now).1.last_error = s.last_error ∧
       (s.on_key_pressed ⟨.F 2, m⟩ env now).2 = .ok ())) ∧
    (env.newHandle = .error emsg →
      (s.on_key_pressed ⟨.F 2, m⟩ env now).1.last_error =
        some (now ++ ": " ++ emsg)) ∧
    (s.clipboard = false →
      s.copy_text_to_clipboard env = .error "Clipboard unavailable") ∧
    (∀ e, (s.paste_text_from_clipboard env).2 = .error e →
      env.newHandle = .error e) := by
  refine ⟨?_, ?_, ?_, ?_⟩
  · intro h1 h2
    simp [App.on_key_pressed, resolve, App.paste_text_from_clipboard,
      recordError, h1, h2]
  · intro h1
    simp [App.on_key_pressed, resolve, App.paste_text_from_clipboard,
      recordError, h1]
  · intro h
    simp [App.copy_text_to_clipboard, h]
  · intro e h
    rcases h1 : env.newHandle with e2 | u
    · rcases h2 : env.getText with e3 | t <;>
        simp [App.paste_text_from_clipboard, h1, h2] at h <;> simp [h]
    · rcases h2 : env.getText with e3 | t <;>
        simp [App.paste_text_from_clipboard, h1, h2] at h

/-- Witness for C5 amended: all four branches exercised concretely. -/
theorem getText_miss_silent_witness :
    (((⟨false, false, "keep", none, none, none⟩ : App).on_key_pressed
        ⟨.F 2, Modifiers.empty⟩ ⟨.ok (), .error "no text", .ok ()⟩ "T").1.text =
      "keep" ∧
     ((⟨false, false, "keep", none, none, none⟩ : App).on_key_pressed
        ⟨.F 2, Modifiers.empty⟩ ⟨.ok (), .error "no text", .ok ()⟩ "T").1.last_error =
      none ∧
     ((⟨false, false, "keep", none, none, none⟩ : App).on_key_pressed
        ⟨.F 2, Modifiers.empty⟩ ⟨.ok (), .error "no text", .ok ()⟩ "T").2 = .ok ()) ∧
    ((⟨false, false, "keep", none, none, none⟩ : App).on_key_pressed
        ⟨.F 2, Modifiers.empty⟩ ⟨.error "init", .error "no text", .ok ()⟩ "T").1.last_error =
      some ("T" ++ ": " ++ "init") ∧
    ((⟨false, false, "keep", none, none, none⟩ : App).copy_text_to_clipboard
        ⟨.ok (), .error "no text", .ok ()⟩ = .error "Clipboard unavailable") ∧
    ((⟨false, false, "keep", none, none, none⟩ : App).paste_text_from_clipboard
        ⟨.error "init", .error "no text", .ok ()⟩).2 = .error "init" :=
  ⟨(getText_miss_silent ⟨false, false, "keep", none, none, none⟩
      ⟨.ok (), .error "no text", .ok ()⟩ Modifiers.empty "T" "no text").1 rfl rfl,
   (getText_miss_silent ⟨false, false, "keep", none, none, none⟩
      ⟨.error "init", .error "no text", .ok ()⟩ Modifiers.empty "T" "init").2.1 rfl,
   (getText_miss_silent ⟨false, false, "keep", none, none, none⟩
      ⟨.ok (), .error "no text", .ok ()⟩ Modifiers.empty "T" "x").2.2.1 rfl,
   (getText_miss_silent ⟨false, false, "keep", none, none, none⟩
      ⟨.error "init", .error "no text", .ok ()⟩ Modifiers.empty "T" "x").2.2.2
     "init" rfl⟩

end TextReplacer
